import Mathlib

/-!
Shallow embedding of the WeGig-API external-catalog proxy layer
(`src/ticketmaster.ts` and `src/musicbrainz.ts`) and proofs about it.

Modelling conventions:
* `Date.now()` timestamps and TTLs are `Nat` milliseconds, passed explicitly
  (`now : Nat`) where the source calls `Date.now()`.
* JavaScript `Map<string, CacheEntry<T>>` is an association list with unique
  keys, maintained by a `Map.set`-style insert.
* Parsed JSON bodies (`any` in the source) are values of an inductive `Json`
  type; JavaScript truthiness of such a value is the `Json.truthy` predicate
  (numbers are `Int`, so the NaN corner of JS truthiness does not arise).
* Each proxy operation is a pure function taking the environment, the cache
  contents, the current time and the (single) upstream HTTP response it would
  observe if it performed its fetch; it returns the result
  (`Except String _`, a thrown `Error` being its message string), the new
  cache contents, and the outbound request it performed, if any
  (`none` = no outbound HTTP call was made).  Outbound requests are modelled
  structurally (path and query parameters) rather than as encoded URL text.
* `setTimeout` timers are idealised as firing exactly at their deadline.
-/

/-- Parsed JSON value (the TS source types these as `any`). -/
inductive Json where
  | null
  | bool (b : Bool)
  | num (n : Int)
  | str (s : String)
  | arr (elems : List Json)
  | obj (fields : List (String × Json))
deriving Repr

/-- JavaScript truthiness of a JSON value (used by `if (cached) return cached`). -/
def Json.truthy : Json → Bool
  | .null => false
  | .bool b => b
  | .num n => n != 0
  | .str s => s != ""
  | .arr _ => true
  | .obj _ => true

/-- Optional-chaining member access `j?.k`: `none` when `j` is not an object
or lacks the field (JS `undefined`). -/
def Json.getField : Json → String → Option Json
  | .obj fields, k => (fields.find? (fun p => p.1 == k)).map (fun p => p.2)
  | _, _ => none

/-- JS truthiness of a `T | null` value such as the result of `getCache`. -/
def jsTruthyOpt (o : Option Json) : Bool :=
  match o with
  | none => false
  | some v => v.truthy

/-! ## TTL cache

`src/ticketmaster.ts` lines 1–17 and `src/musicbrainz.ts` lines 23–62 each
define the same three-line cache logic over a `Map<string, CacheEntry<T>>`
(the MusicBrainz copy names the value field `data` instead of `value`).
We embed it once, generically in the value type. -/

/-- Source type `CacheEntry<T> = { value: T; expiresAt: number }`. -/
structure CacheEntry (α : Type) where
  value : α
  expiresAt : Nat
deriving Repr

/-- A `Map<string, CacheEntry<T>>`: association list with unique keys. -/
def CacheMap (α : Type) : Type := List (String × CacheEntry α)

/-- Models `Map.get`: the entry stored under `key`, if any. -/
def cacheLookup {α : Type} (c : CacheMap α) (key : String) : Option (CacheEntry α) :=
  (c.find? (fun p => p.1 == key)).map (fun p => p.2)

/-- Models `Map.set`: overwrite the entry under `key` in place, or append a new one. -/
def cacheInsert {α : Type} (c : CacheMap α) (key : String) (e : CacheEntry α) : CacheMap α :=
  match c with
  | [] => [(key, e)]
  | (k0, e0) :: rest =>
      if k0 == key then (key, e) :: rest else (k0, e0) :: cacheInsert rest key e

/-- Models `Map.delete key`. -/
def cacheDelete {α : Type} (c : CacheMap α) (key : String) : CacheMap α :=
  c.filter (fun p => p.1 != key)

/-- Embeds `getCache` (= `getCached` in the MusicBrainz file): returns the stored
value if present and not expired; an expired entry is deleted (lazy eviction)
and `null` is returned.  The mutation of the `Map` is made explicit: the
function returns the cache contents after the call. -/
def getCache {α : Type} (c : CacheMap α) (key : String) (now : Nat) :
    Option α × CacheMap α :=
  match cacheLookup c key with
  | none => (none, c)
  | some entry =>
      if now > entry.expiresAt then (none, cacheDelete c key)
      else (some entry.value, c)

/-- Embeds `setCache` (= `setCached` with its fixed TTL applied at the call site):
stores `{ value, expiresAt: Date.now() + ttlMs }` under `key`. -/
def setCache {α : Type} (c : CacheMap α) (key : String) (v : α) (now ttlMs : Nat) :
    CacheMap α :=
  cacheInsert c key ⟨v, now + ttlMs⟩

/-! ## Query-string construction (`buildQuery`, `src/ticketmaster.ts` 19–26)

A `Record<string, string | number | undefined>` is a list of key/value pairs
with pairwise-distinct keys (object-literal keys are unique); the values are
`QVal` (string or number) or `none` (`undefined`).  The `URLSearchParams`
accumulator is the list of its (key, value) pairs; `usp.set` overwrites the
first pair with the given key and drops later duplicates, else appends. -/

/-- A defined query-parameter value: `string | number`. -/
inductive QVal where
  | s (v : String)
  | n (v : Int)
deriving Repr, DecidableEq

/-- Models `String(v)`. -/
def qvalToString : QVal → String
  | .s v => v
  | .n v => toString v

/-- Models `URLSearchParams.set`. -/
def uspSet : List (String × String) → String → String → List (String × String)
  | [], k, v => [(k, v)]
  | (k0, v0) :: rest, k, v =>
      if k0 == k then (k, v) :: rest.filter (fun p => p.1 != k)
      else (k0, v0) :: uspSet rest k v

/-- Embeds `buildQuery`: skip `undefined` and `""` values, `usp.set(k, String(v))`
for the rest.  Returns the resulting parameter pairs in order. -/
def buildQuery (params : List (String × Option QVal)) : List (String × String) :=
  params.foldl
    (fun usp kv =>
      match kv.2 with
      | none => usp
      | some w => if w == QVal.s "" then usp else uspSet usp kv.1 (qvalToString w))
    []

/-- Models `usp.toString()`, with percent-encoding abstracted away (no claim in scope
depends on the encoding of individual characters). -/
def renderQuery (pairs : List (String × String)) : String :=
  String.intercalate "&" (pairs.map (fun p => p.1 ++ "=" ++ p.2))

/-! ## JS string builtins

Structural models of `String.prototype.trim` and `String.prototype.toLowerCase`
(restricted to the ASCII range exercised here). -/

/-- The core JS whitespace characters. -/
def jsWhitespace (c : Char) : Bool :=
  c == ' ' || c == '\t' || c == '\n' || c == '\r' || c == '\x0b' || c == '\x0c'

/-- Models `s.trim()`. -/
def jsTrim (s : String) : String :=
  ⟨(((s.data.dropWhile jsWhitespace).reverse.dropWhile jsWhitespace).reverse)⟩

/-- Models `s.toLowerCase()`. -/
def jsToLower (s : String) : String :=
  ⟨s.data.map Char.toLower⟩


/-! ## Cache lemmas -/

theorem cacheInsert_find?_self {α : Type} (c : CacheMap α) (key : String) (e : CacheEntry α) :
    List.find? (fun p => p.1 == key) (cacheInsert c key e) = some (key, e) := by
  induction c with
  | nil => simp [cacheInsert, List.find?]
  | cons hd tl ih =>
      obtain ⟨k0, e0⟩ := hd
      by_cases h : k0 = key
      · subst h
        simp [cacheInsert, List.find?]
      · simp [cacheInsert, List.find?, h, ih]

theorem cacheLookup_insert_self {α : Type} (c : CacheMap α) (key : String) (e : CacheEntry α) :
    cacheLookup (cacheInsert c key e) key = some e := by
  simp [cacheLookup, cacheInsert_find?_self]

theorem cacheLookup_delete_self {α : Type} (c : CacheMap α) (key : String) :
    cacheLookup (cacheDelete c key) key = none := by
  induction c with
  | nil => simp [cacheDelete, cacheLookup, List.find?]
  | cons hd tl ih =>
      obtain ⟨k0, e0⟩ := hd
      by_cases h : k0 = key
      · subst h
        simp [cacheDelete, cacheLookup, List.find?]
      · simp [cacheDelete, cacheLookup, List.find?, h]

/-- Evaluates `getCache` when no entry is stored under the key. -/
theorem getCache_lookup_none {α : Type} {c : CacheMap α} {key : String} (now : Nat)
    (hl : cacheLookup c key = none) : getCache c key now = (none, c) := by
  unfold getCache
  rw [hl]

/-- Evaluates `getCache` when an entry is stored under the key. -/
theorem getCache_lookup_some {α : Type} {c : CacheMap α} {key : String} (now : Nat)
    {entry : CacheEntry α} (hl : cacheLookup c key = some entry) :
    getCache c key now =
      if now > entry.expiresAt then (none, cacheDelete c key)
      else (some entry.value, c) := by
  unfold getCache
  rw [hl]

/-- A fresh hit leaves the cache untouched and returns the stored value. -/
theorem getCache_eq_of_fst_some {α : Type} {c : CacheMap α} {key : String} {now : Nat}
    {v : α} (h : (getCache c key now).1 = some v) :
    getCache c key now = (some v, c) := by
  cases hl : cacheLookup c key with
  | none => rw [getCache_lookup_none now hl] at h; simp at h
  | some entry =>
      rw [getCache_lookup_some now hl] at h ⊢
      by_cases hexp : now > entry.expiresAt
      · rw [if_pos hexp] at h; simp at h
      · rw [if_neg hexp] at h ⊢
        simp only [Prod.mk.injEq]
        simp only [Option.some.injEq] at h
        exact ⟨congrArg some h, trivial⟩

/-- A miss leaves no entry under the key behind (either there was none, or the
expired one was deleted). -/
theorem getCache_miss_no_entry {α : Type} {c : CacheMap α} {key : String} {now : Nat}
    (h : (getCache c key now).1 = none) :
    cacheLookup (getCache c key now).2 key = none := by
  cases hl : cacheLookup c key with
  | none => rw [getCache_lookup_none now hl]; exact hl
  | some entry =>
      rw [getCache_lookup_some now hl] at h ⊢
      by_cases hexp : now > entry.expiresAt
      · rw [if_pos hexp]
        exact cacheLookup_delete_self c key
      · rw [if_neg hexp] at h; simp at h

/-- Evaluates `getCache` after `setCache` on the same key, in closed form. -/
theorem getCache_setCache (α : Type) (c : CacheMap α) (key : String) (v : α)
    (setTime ttl now : Nat) :
    getCache (setCache c key v setTime ttl) key now =
      (if now ≤ setTime + ttl then (some v, setCache c key v setTime ttl)
       else (none, cacheDelete (setCache c key v setTime ttl) key)) := by
  have hl : cacheLookup (setCache c key v setTime ttl) key = some ⟨v, setTime + ttl⟩ :=
    cacheLookup_insert_self c key _
  rw [getCache_lookup_some now hl]
  by_cases h : now ≤ setTime + ttl
  · rw [if_pos h]
    have hgt : ¬ now > (⟨v, setTime + ttl⟩ : CacheEntry α).expiresAt := by
      simp only [CacheEntry.expiresAt]; omega
    rw [if_neg hgt]
  · rw [if_neg h]
    have hgt : now > (⟨v, setTime + ttl⟩ : CacheEntry α).expiresAt := by
      simp only [CacheEntry.expiresAt]; omega
    rw [if_pos hgt]

/-- C2: after `set(key, value, ttl)` at `setTime`, `get(key)` returns `value`
at every `now ≤ setTime + ttl`; at every `now > setTime + ttl` it behaves as
absent and deletes the stale entry from the cache map as part of that same
`get` (lazy eviction). -/
theorem cache_ttl_roundtrip (α : Type) (c : CacheMap α) (key : String) (v : α)
    (setTime ttl now : Nat) :
    (now ≤ setTime + ttl →
      getCache (setCache c key v setTime ttl) key now =
        (some v, setCache c key v setTime ttl)) ∧
    (setTime + ttl < now →
      (getCache (setCache c key v setTime ttl) key now).1 = none ∧
      (getCache (setCache c key v setTime ttl) key now).2 =
        cacheDelete (setCache c key v setTime ttl) key ∧
      cacheLookup (getCache (setCache c key v setTime ttl) key now).2 key = none) := by
  constructor
  · intro h
    rw [getCache_setCache, if_pos h]
  · intro h
    have hn : ¬ now ≤ setTime + ttl := by omega
    rw [getCache_setCache, if_neg hn]
    exact ⟨rfl, rfl, cacheLookup_delete_self _ _⟩

theorem cache_ttl_roundtrip_witness :
    getCache (setCache ([] : CacheMap Nat) "k" 7 0 10) "k" 10 =
      (some 7, setCache ([] : CacheMap Nat) "k" 7 0 10) ∧
    (getCache (setCache ([] : CacheMap Nat) "k" 7 0 10) "k" 11).1 = none :=
  ⟨(cache_ttl_roundtrip Nat [] "k" 7 0 10 10).1 (by decide),
   ((cache_ttl_roundtrip Nat [] "k" 7 0 10 11).2 (by decide)).1⟩

/-! ## `buildQuery` lemmas (claim C7) -/

theorem uspSet_append (acc : List (String × String)) (k v : String)
    (h : ∀ p ∈ acc, p.1 ≠ k) : uspSet acc k v = acc ++ [(k, v)] := by
  induction acc with
  | nil => rfl
  | cons hd tl ih =>
      obtain ⟨k0, v0⟩ := hd
      have hk0 : k0 ≠ k := h (k0, v0) (List.mem_cons_self _ _)
      simp only [uspSet, beq_iff_eq, hk0, if_false, List.cons_append]
      rw [ih (fun p hp => h p (List.mem_cons_of_mem _ hp))]

/-- One step of the `buildQuery` loop body. -/
def buildQueryStep (usp : List (String × String)) (kv : String × Option QVal) :
    List (String × String) :=
  match kv.2 with
  | none => usp
  | some w => if w == QVal.s "" then usp else uspSet usp kv.1 (qvalToString w)

theorem buildQuery_eq_foldl (params : List (String × Option QVal)) :
    buildQuery params = params.foldl buildQueryStep [] := rfl

/-- The contribution of a single parameter to the query. -/
def buildQueryEmit (kv : String × Option QVal) : Option (String × String) :=
  match kv.2 with
  | none => none
  | some w => if w == QVal.s "" then none else some (kv.1, qvalToString w)

theorem buildQuery_foldl_eq_filterMap (params : List (String × Option QVal))
    (acc : List (String × String))
    (hdisj : ∀ p ∈ acc, ∀ q ∈ params, p.1 ≠ q.1)
    (hnd : (params.map Prod.fst).Nodup) :
    params.foldl buildQueryStep acc = acc ++ params.filterMap buildQueryEmit := by
  induction params generalizing acc with
  | nil => simp
  | cons hd tl ih =>
      obtain ⟨k, v⟩ := hd
      have hndtl : (tl.map Prod.fst).Nodup := (List.nodup_cons.mp (by simpa using hnd)).2
      have hknotin : k ∉ tl.map Prod.fst := (List.nodup_cons.mp (by simpa using hnd)).1
      have hdisjtl : ∀ p ∈ acc, ∀ q ∈ tl, p.1 ≠ q.1 :=
        fun p hp q hq => hdisj p hp q (List.mem_cons_of_mem _ hq)
      rw [List.foldl_cons, List.filterMap_cons]
      cases v with
      | none =>
          have h1 : buildQueryStep acc (k, none) = acc := rfl
          have h2 : buildQueryEmit (k, none) = none := rfl
          rw [h1, h2]
          exact ih acc hdisjtl hndtl
      | some w =>
          by_cases hw : w = QVal.s ""
          · subst hw
            have h1 : buildQueryStep acc (k, some (QVal.s "")) = acc := by
              simp [buildQueryStep]
            have h2 : buildQueryEmit (k, some (QVal.s "")) = none := by
              simp [buildQueryEmit]
            rw [h1, h2]
            exact ih acc hdisjtl hndtl
          · have hbeq : (w == QVal.s "") = false := by
              simp [hw]
            have h1 : buildQueryStep acc (k, some w) = uspSet acc k (qvalToString w) := by
              simp [buildQueryStep, hbeq]
            have h2 : buildQueryEmit (k, some w) = some (k, qvalToString w) := by
              simp [buildQueryEmit, hbeq]
            rw [h1, h2]
            have hset : uspSet acc k (qvalToString w) = acc ++ [(k, qvalToString w)] :=
              uspSet_append acc k (qvalToString w)
                (fun p hp => hdisj p hp (k, some w) (List.mem_cons_self _ _))
            rw [hset]
            have hdisj2 : ∀ p ∈ acc ++ [(k, qvalToString w)], ∀ q ∈ tl, p.1 ≠ q.1 := by
              intro p hp q hq
              rcases List.mem_append.mp hp with hpa | hpk
              · exact hdisjtl p hpa q hq
              · have hpk2 : p = (k, qvalToString w) := by simpa using hpk
                subst hpk2
                intro hcontra
                apply hknotin
                have hkq : k = q.1 := hcontra
                rw [hkq]
                exact List.mem_map_of_mem Prod.fst hq
            rw [ih (acc ++ [(k, qvalToString w)]) hdisj2 hndtl]
            simp

/-- C7: a parameter whose value is `undefined` or the empty string never
appears in the constructed query; every other parameter appears with its
stringified value.  (Keys of a `Record` object literal are pairwise
distinct, whence the `Nodup` hypothesis.) -/
theorem buildQuery_param_omission (params : List (String × Option QVal))
    (hnd : (params.map Prod.fst).Nodup) (k s : String) :
    (k, s) ∈ buildQuery params ↔
      ∃ w : QVal, (k, some w) ∈ params ∧ w ≠ QVal.s "" ∧ s = qvalToString w := by
  rw [buildQuery_eq_foldl,
    buildQuery_foldl_eq_filterMap params [] (by simp) hnd]
  simp only [List.nil_append, List.mem_filterMap]
  constructor
  · rintro ⟨⟨k0, v0⟩, hmem, hemit⟩
    cases v0 with
    | none => exact absurd hemit (by simp [buildQueryEmit])
    | some w =>
        by_cases hw : w = QVal.s ""
        · subst hw
          exact absurd hemit (by simp [buildQueryEmit])
        · have hbeq : (w == QVal.s "") = false := by simp [hw]
          have h2 : buildQueryEmit (k0, some w) = some (k0, qvalToString w) := by
            simp [buildQueryEmit, hbeq]
          rw [h2] at hemit
          have h3 : (k0, qvalToString w) = (k, s) := Option.some.inj hemit
          have hk3 : k0 = k := congrArg Prod.fst h3
          have hs3 : qvalToString w = s := congrArg Prod.snd h3
          subst hk3
          exact ⟨w, hmem, hw, hs3.symm⟩
  · rintro ⟨w, hmem, hw, hs⟩
    refine ⟨(k, some w), hmem, ?_⟩
    have hbeq : (w == QVal.s "") = false := by simp [hw]
    simp [buildQueryEmit, hbeq, hs]

theorem buildQuery_param_omission_witness :
    (("b", "") ∈ buildQuery
        [("a", some (QVal.s "x")), ("b", none), ("c", some (QVal.s ""))] ↔
      ∃ w : QVal,
        ("b", some w) ∈
            [("a", some (QVal.s "x")), ("b", none), ("c", some (QVal.s ""))] ∧
        w ≠ QVal.s "" ∧ "" = qvalToString w) :=
  buildQuery_param_omission _ (by decide) "b" ""

/-! ## Ticketmaster proxy (`src/ticketmaster.ts`)

The shared `Map` of that file stores `any` payloads: `CacheMap Json`.
Each operation takes the upstream `HttpResponse` it would observe if it
performed its fetch; `request = none` in the outcome means no outbound HTTP
call was made. -/

/-- The TTL in `setCache(cacheKey, json, 30 * 60 * 1000)` in `searchTmEventsUk`. -/
def tmSearchTtlMs : Nat := 30 * 60 * 1000

/-- The TTL in `setCache(cacheKey, json, 24 * 60 * 60 * 1000)` in `getTmEventByIdUk`. -/
def tmEventByIdTtlMs : Nat := 24 * 60 * 60 * 1000

/-- The TTL in `setCache(cacheKey, payload, 60 * 60 * 1000)` in `searchTmVenuesUk`. -/
def tmVenuesTtlMs : Nat := 60 * 60 * 1000

/-- The environment variables the Ticketmaster module reads. -/
structure TmEnv where
  tmApiKey : Option String
  tmCountryCode : Option String

/-- Embeds `requireApiKey`: `if (!key) throw new Error(...)` — an absent or empty
credential is falsy and throws. -/
def requireApiKey (env : TmEnv) : Except String String :=
  match env.tmApiKey with
  | none => .error "Missing TICKETMASTER_API_KEY secret"
  | some key =>
      if key == "" then .error "Missing TICKETMASTER_API_KEY secret" else .ok key

/-- Models `process.env.TICKETMASTER_COUNTRY_CODE || "GB"`. -/
def tmCountry (env : TmEnv) : String :=
  match env.tmCountryCode with
  | none => "GB"
  | some s => if s == "" then "GB" else s

/-- An upstream HTTP response as the operations observe it: `res.ok`,
`res.status`, `res.statusText`, `res.text()` (`none` models a rejected
`text()` promise, caught to `""`), and the parsed `res.json()` body. -/
structure HttpResponse where
  ok : Bool
  status : Nat
  statusText : String
  bodyText : Option String
  json : Json

/-- An outbound request: path under the API base plus its query parameters
(the URL string is determined by these). -/
structure TmRequest where
  path : String
  query : List (String × String)

/-- Result of one Ticketmaster operation: the returned/thrown value, the
cache contents afterwards, and the outbound request if one was made. -/
structure TmOpOutcome where
  result : Except String Json
  cache : CacheMap Json
  request : Option TmRequest

/-- Input of `searchTmEventsUk`. -/
structure TmEventsInput where
  keyword : Option String
  city : Option String
  startDateTime : Option String
  endDateTime : Option String
  size : Option Int

/-- The query `searchTmEventsUk` builds (`size` defaulted to 20). -/
def tmEventsQuery (apiKey countryCode : String) (input : TmEventsInput) :
    List (String × String) :=
  buildQuery
    [("apikey", some (.s apiKey)),
     ("countryCode", some (.s countryCode)),
     ("keyword", input.keyword.map .s),
     ("city", input.city.map .s),
     ("startDateTime", input.startDateTime.map .s),
     ("endDateTime", input.endDateTime.map .s),
     ("size", some (.n (input.size.getD 20))),
     ("sort", some (.s "date,asc"))]

/-- The key `` `tm:search:${query}` ``. -/
def tmEventsKey (apiKey countryCode : String) (input : TmEventsInput) : String :=
  "tm:search:" ++ renderQuery (tmEventsQuery apiKey countryCode input)

def searchTmEventsUk (env : TmEnv) (c : CacheMap Json) (now : Nat)
    (resp : HttpResponse) (input : TmEventsInput) : TmOpOutcome :=
  match requireApiKey env with
  | .error e => ⟨.error e, c, none⟩
  | .ok apiKey =>
      let countryCode := tmCountry env
      let query := tmEventsQuery apiKey countryCode input
      let cacheKey := tmEventsKey apiKey countryCode input
      let looked := getCache c cacheKey now
      -- `if (cached) return cached;` — JS truthiness of the cached value
      if jsTruthyOpt looked.1 then ⟨.ok (looked.1.getD .null), looked.2, none⟩
      else
        -- `await fetch(`${TM_BASE}/events.json?${query}`)`
        if resp.ok then
          ⟨.ok resp.json, setCache looked.2 cacheKey resp.json now tmSearchTtlMs,
           some ⟨"events.json", query⟩⟩
        else
          let text := resp.bodyText.getD ""
          ⟨.error ("Ticketmaster error " ++ toString resp.status ++ ": " ++
              (if text == "" then resp.statusText else text)),
           looked.2, some ⟨"events.json", query⟩⟩

/-- The query `getTmEventByIdUk` builds. -/
def tmEventByIdQuery (apiKey countryCode : String) : List (String × String) :=
  buildQuery [("apikey", some (.s apiKey)), ("countryCode", some (.s countryCode))]

/-- The key `` `tm:event:${eventId}:${query}` ``. -/
def tmEventByIdKey (apiKey countryCode eventId : String) : String :=
  "tm:event:" ++ eventId ++ ":" ++ renderQuery (tmEventByIdQuery apiKey countryCode)

def getTmEventByIdUk (env : TmEnv) (c : CacheMap Json) (now : Nat)
    (resp : HttpResponse) (eventId : String) : TmOpOutcome :=
  match requireApiKey env with
  | .error e => ⟨.error e, c, none⟩
  | .ok apiKey =>
      let countryCode := tmCountry env
      let query := tmEventByIdQuery apiKey countryCode
      let cacheKey := tmEventByIdKey apiKey countryCode eventId
      let looked := getCache c cacheKey now
      if jsTruthyOpt looked.1 then ⟨.ok (looked.1.getD .null), looked.2, none⟩
      else
        if resp.ok then
          ⟨.ok resp.json, setCache looked.2 cacheKey resp.json now tmEventByIdTtlMs,
           some ⟨"events/" ++ eventId ++ ".json", query⟩⟩
        else
          let text := resp.bodyText.getD ""
          ⟨.error ("Ticketmaster error " ++ toString resp.status ++ ": " ++
              (if text == "" then resp.statusText else text)),
           looked.2, some ⟨"events/" ++ eventId ++ ".json", query⟩⟩

/-- Models `json?._embedded?.venues ?? []` (a non-array value under `venues` would
make the subsequent `.map` throw in JS; no claim exercises that corner). -/
def tmEmbeddedVenues (j : Json) : List Json :=
  match (j.getField "_embedded").bind (fun e => e.getField "venues") with
  | some (.arr vs) => vs
  | _ => []

/-- The per-venue projection in `searchTmVenuesUk` (`v?.id` / `v?.name` give
JS `undefined` when absent, modelled as `null`; `city` and `countryCode`
are `?? null` in the source). -/
def tmNormalizeVenue (v : Json) : Json :=
  .obj [("id", (v.getField "id").getD .null),
        ("name", (v.getField "name").getD .null),
        ("city", ((v.getField "city").bind (fun cj => cj.getField "name")).getD .null),
        ("countryCode",
          ((v.getField "country").bind (fun cj => cj.getField "countryCode")).getD .null)]

/-- Input of `searchTmVenuesUk` (`q` is defended with `?? ""`). -/
structure TmVenuesInput where
  q : Option String
  city : Option String
  size : Option Int

/-- The query `searchTmVenuesUk` builds (`size` defaulted to 8,
`keyword` is the trimmed `q`). -/
def tmVenuesQuery (apiKey countryCode q : String) (input : TmVenuesInput) :
    List (String × String) :=
  buildQuery
    [("apikey", some (.s apiKey)),
     ("countryCode", some (.s countryCode)),
     ("keyword", some (.s q)),
     ("city", input.city.map .s),
     ("size", some (.n (input.size.getD 8)))]

/-- The key `` `tm:venues:${query}` ``. -/
def tmVenuesKey (apiKey countryCode q : String) (input : TmVenuesInput) : String :=
  "tm:venues:" ++ renderQuery (tmVenuesQuery apiKey countryCode q input)

/-- The payload of `return { venues: [] };` for a blank query. -/
def emptyVenuesPayload : Json := .obj [("venues", .arr [])]

def searchTmVenuesUk (env : TmEnv) (c : CacheMap Json) (now : Nat)
    (resp : HttpResponse) (input : TmVenuesInput) : TmOpOutcome :=
  match requireApiKey env with
  | .error e => ⟨.error e, c, none⟩
  | .ok apiKey =>
      let countryCode := tmCountry env
      let q := jsTrim (input.q.getD "")
      -- `if (!q) return { venues: [] };`
      if q == "" then ⟨.ok emptyVenuesPayload, c, none⟩
      else
        let query := tmVenuesQuery apiKey countryCode q input
        let cacheKey := tmVenuesKey apiKey countryCode q input
        let looked := getCache c cacheKey now
        if jsTruthyOpt looked.1 then ⟨.ok (looked.1.getD .null), looked.2, none⟩
        else
          if resp.ok then
            let venues := (tmEmbeddedVenues resp.json).map tmNormalizeVenue
            let payload := Json.obj [("venues", .arr venues)]
            ⟨.ok payload, setCache looked.2 cacheKey payload now tmVenuesTtlMs,
             some ⟨"venues.json", query⟩⟩
          else
            let text := resp.bodyText.getD ""
            ⟨.error ("Ticketmaster error " ++ toString resp.status ++ ": " ++
                (if text == "" then resp.statusText else text)),
             looked.2, some ⟨"venues.json", query⟩⟩

/-! ## Claim C6: missing credential fails fast -/

/-- C6: with the events-catalog credential absent from the environment, each
of `searchTmEventsUk`, `getTmEventByIdUk` and `searchTmVenuesUk` fails with
the configuration error, leaves the cache untouched (no lookup side effect)
and performs no outbound call. -/
theorem missing_credential_fails_fast (env : TmEnv) (hkey : env.tmApiKey = none)
    (c : CacheMap Json) (now : Nat) (resp : HttpResponse) :
    (∀ input : TmEventsInput,
      searchTmEventsUk env c now resp input =
        ⟨.error "Missing TICKETMASTER_API_KEY secret", c, none⟩) ∧
    (∀ eventId : String,
      getTmEventByIdUk env c now resp eventId =
        ⟨.error "Missing TICKETMASTER_API_KEY secret", c, none⟩) ∧
    (∀ input : TmVenuesInput,
      searchTmVenuesUk env c now resp input =
        ⟨.error "Missing TICKETMASTER_API_KEY secret", c, none⟩) := by
  have hreq : requireApiKey env = .error "Missing TICKETMASTER_API_KEY secret" := by
    simp [requireApiKey, hkey]
  refine ⟨fun input => ?_, fun eventId => ?_, fun input => ?_⟩
  · simp [searchTmEventsUk, hreq]
  · simp [getTmEventByIdUk, hreq]
  · simp [searchTmVenuesUk, hreq]

theorem missing_credential_fails_fast_witness :
    searchTmEventsUk ⟨none, none⟩ [] 0 ⟨true, 200, "OK", none, Json.null⟩
        ⟨none, none, none, none, none⟩ =
      ⟨.error "Missing TICKETMASTER_API_KEY secret", [], none⟩ :=
  (missing_credential_fails_fast ⟨none, none⟩ rfl [] 0
      ⟨true, 200, "OK", none, Json.null⟩).1 ⟨none, none, none, none, none⟩

/-! ## Claim C9: venue search with a blank query -/

/-- C9: with the credential configured, a venue search whose query trims to
the empty string returns `{ venues: [] }` at once: no cache access, no
outbound call. -/
theorem venues_empty_query_short_circuits (env : TmEnv) (apiKey : String)
    (hreq : requireApiKey env = .ok apiKey)
    (c : CacheMap Json) (now : Nat) (resp : HttpResponse) (input : TmVenuesInput)
    (hq : jsTrim (input.q.getD "") = "") :
    searchTmVenuesUk env c now resp input = ⟨.ok emptyVenuesPayload, c, none⟩ := by
  simp [searchTmVenuesUk, hreq, hq]

theorem venues_empty_query_short_circuits_witness :
    searchTmVenuesUk ⟨some "K", none⟩ [] 0 ⟨true, 200, "OK", none, Json.null⟩
        ⟨some "   ", none, none⟩ =
      ⟨.ok emptyVenuesPayload, [], none⟩ :=
  venues_empty_query_short_circuits ⟨some "K", none⟩ "K" rfl [] 0
    ⟨true, 200, "OK", none, Json.null⟩ ⟨some "   ", none, none⟩ rfl

/-! ## MusicBrainz proxy (`src/musicbrainz.ts`) -/

/-- The constant `ONE_DAY_MS = 24 * 60 * 60 * 1000`, the TTL `setCached` applies. -/
def ONE_DAY_MS : Nat := 24 * 60 * 60 * 1000

/-- The normalized artist shape (`MbArtist` in the source). -/
structure MbArtist where
  id : String
  name : String
  country : Option String
  disambiguation : Option String
  score : Option Int
deriving Repr, DecidableEq

/-- An upstream artist record: the fields the source reads plus the other
upstream fields the TS cast silently carries along (`extraFields`), which the
normalization must not leak. -/
structure MbUpstreamArtist where
  id : String
  name : String
  country : Option String
  disambiguation : Option String
  score : Option Int
  extraFields : List (String × String)
deriving Repr

/-- Source type `MbSearchResponse`: `{ artists?: [...] }`. -/
structure MbSearchResponse where
  artists : Option (List MbUpstreamArtist)
deriving Repr

/-- The payload the operation returns and caches. -/
structure MbPayload where
  count : Nat
  artists : List MbArtist
deriving Repr, DecidableEq

/-- The environment variable the MusicBrainz module reads. -/
structure MbEnv where
  mbUserAgent : Option String

/-- Embeds `getUserAgent`: `ua && ua.trim() ? ua.trim() : <placeholder>`. -/
def getUserAgent (env : MbEnv) : String :=
  match env.mbUserAgent with
  | none => "WeGig/0.0.0 (missing MB_USER_AGENT; contact unknown)"
  | some ua =>
      if jsTrim ua == "" then "WeGig/0.0.0 (missing MB_USER_AGENT; contact unknown)"
      else jsTrim ua

/-- The upstream response as `searchMbArtists` observes it; `data` is the
`res.json() as MbSearchResponse` body, consulted only on `ok`. -/
structure MbHttpResponse where
  ok : Bool
  status : Nat
  statusText : String
  bodyText : Option String
  data : MbSearchResponse

/-- Input: `{ q: string; limit?: number }`. -/
structure MbParams where
  q : String
  limit : Option Int

/-- The outbound MusicBrainz request: its `query` parameter (before URL
encoding), its `limit` parameter, and the `User-Agent` header sent. -/
structure MbRequest where
  query : String
  limit : Int
  userAgent : String
deriving Repr, DecidableEq

/-- Result of one `searchMbArtists` call. -/
structure MbOpOutcome where
  result : Except String MbPayload
  cache : CacheMap MbPayload
  request : Option MbRequest

/-- Models `Math.min(Math.max(params.limit ?? 8, 1), 25)`. -/
def mbLimit (l : Option Int) : Int :=
  min (max (l.getD 8) 1) 25

/-- The key `` `mb:artist:${q.toLowerCase()}:${limit}` `` (with `q` already trimmed). -/
def mbCacheKey (q : String) (limit : Int) : String :=
  "mb:artist:" ++ jsToLower q ++ ":" ++ toString limit

/-- The field-by-field projection in `searchMbArtists`: a fresh object with
exactly `id`, `name`, `country`, `disambiguation`, `score`. -/
def mbNormalize (a : MbUpstreamArtist) : MbArtist :=
  ⟨a.id, a.name, a.country, a.disambiguation, a.score⟩

def searchMbArtists (env : MbEnv) (c : CacheMap MbPayload) (now : Nat)
    (resp : MbHttpResponse) (params : MbParams) : MbOpOutcome :=
  let q := jsTrim params.q
  let limit := mbLimit params.limit
  let cacheKey := mbCacheKey q limit
  let looked := getCache c cacheKey now
  match looked.1 with
  -- `if (cached) return cached;` — the typed cached payload is an object,
  -- hence truthy whenever non-null
  | some payload => ⟨.ok payload, looked.2, none⟩
  | none =>
      -- `await throttleOneReqPerSec()` — pure delay; its timing behaviour is
      -- modelled separately by the `Throttle` development below
      -- `await fetch(url, { headers: { "User-Agent": getUserAgent(), ... } })`
      if resp.ok then
        let artists := (resp.data.artists.getD []).map mbNormalize
        let payload : MbPayload := ⟨artists.length, artists⟩
        ⟨.ok payload, setCache looked.2 cacheKey payload now ONE_DAY_MS,
         some ⟨"artist:" ++ q, limit, getUserAgent env⟩⟩
      else
        let text := resp.bodyText.getD ""
        ⟨.error ("MusicBrainz " ++ toString resp.status ++ ": " ++
            (if text == "" then resp.statusText else text)),
         looked.2, some ⟨"artist:" ++ q, limit, getUserAgent env⟩⟩

/-! ## Claim C8: artist-search normalization scenario -/

/-- First mocked upstream record (carries upstream-only fields). -/
def mbScenUpstream1 : MbUpstreamArtist :=
  ⟨"a74b1b7f-71a5-4011-9441-d0b5e4122711", "Radiohead", some "GB", none, some 100,
   [("sort-name", "Radiohead"), ("type", "Group")]⟩

/-- Second mocked upstream record. -/
def mbScenUpstream2 : MbUpstreamArtist :=
  ⟨"7f3c3f6b-9981-4a2c-9f00-2718e8a67d3a", "Radiohead Tribute", some "US",
   some "tribute act", some 62, [("type", "Group"), ("life-span", "1995-")]⟩

/-- The mocked upstream response returning the two records. -/
def mbScenResp : MbHttpResponse :=
  ⟨true, 200, "OK", none, ⟨some [mbScenUpstream1, mbScenUpstream2]⟩⟩

/-- What the operation must return: `count = 2` and exactly the five
normalized fields per artist — none of the `extraFields` survive. -/
def mbScenExpected : MbPayload :=
  ⟨2,
   [⟨"a74b1b7f-71a5-4011-9441-d0b5e4122711", "Radiohead", some "GB", none, some 100⟩,
    ⟨"7f3c3f6b-9981-4a2c-9f00-2718e8a67d3a", "Radiohead Tribute", some "US",
     some "tribute act", some 62⟩]⟩

/-- C8: for `q = "Radiohead"`, `limit = 5` and a mocked upstream returning
two matching records, `searchMbArtists` returns `{count: 2, artists: [...]}`
with exactly the normalized fields, caches it for a day under
`mb:artist:radiohead:5`, and sends `query=artist:Radiohead&limit=5`. -/
theorem mb_artist_search_scenario :
    searchMbArtists ⟨some "test-app/1.0"⟩ [] 0 mbScenResp ⟨"Radiohead", some 5⟩ =
      ⟨.ok mbScenExpected,
       [("mb:artist:radiohead:5", ⟨mbScenExpected, 86400000⟩)],
       some ⟨"artist:Radiohead", 5, "test-app/1.0"⟩⟩ := rfl

/-! ## Claim C10: the artist-search limit is clamped to [1, 25] -/

/-- C10: on a cache miss with a successful response, the outbound request and
the key the result is stored under both use the clamped limit
`min(max(limit ?? 8, 1), 25)`, which always lies in `[1, 25]` and is `8`
when the caller omits `limit`. -/
theorem mb_limit_clamped (env : MbEnv) (c : CacheMap MbPayload) (now : Nat)
    (resp : MbHttpResponse) (params : MbParams)
    (hmiss : (getCache c (mbCacheKey (jsTrim params.q) (mbLimit params.limit)) now).1 = none)
    (hok : resp.ok = true) :
    (searchMbArtists env c now resp params).request =
      some ⟨"artist:" ++ jsTrim params.q, mbLimit params.limit, getUserAgent env⟩ ∧
    (cacheLookup (searchMbArtists env c now resp params).cache
        (mbCacheKey (jsTrim params.q) (mbLimit params.limit))).isSome = true ∧
    1 ≤ mbLimit params.limit ∧ mbLimit params.limit ≤ 25 ∧
    mbLimit none = 8 ∧
    (∀ l : Int, mbLimit (some l) = min (max l 1) 25) := by
  refine ⟨?_, ?_, ?_, ?_, by decide, fun l => rfl⟩
  · simp [searchMbArtists, hmiss, hok]
  · simp [searchMbArtists, hmiss, hok, setCache, cacheLookup_insert_self]
  · unfold mbLimit
    exact le_min (le_max_right _ _) (by norm_num)
  · unfold mbLimit
    exact min_le_right _ _

theorem mb_limit_clamped_witness :
    (searchMbArtists ⟨none⟩ [] 0 ⟨true, 200, "OK", none, ⟨none⟩⟩
        ⟨"x", some 100⟩).request =
      some ⟨"artist:" ++ jsTrim "x", mbLimit (some 100), getUserAgent ⟨none⟩⟩ ∧
    1 ≤ mbLimit (some 100) ∧ mbLimit (some 100) ≤ 25 ∧
    mbLimit (some 30) = min (max 30 1) 25 :=
  have h := mb_limit_clamped ⟨none⟩ [] 0 ⟨true, 200, "OK", none, ⟨none⟩⟩
    ⟨"x", some 100⟩ rfl rfl
  ⟨h.1, h.2.2.1, h.2.2.2.1, h.2.2.2.2.2 30⟩

/-! ## Per-operation miss-path lemmas -/

theorem searchTmEventsUk_miss_ok (env : TmEnv) (c : CacheMap Json) (now : Nat)
    (resp : HttpResponse) (input : TmEventsInput) (apiKey : String)
    (hreq : requireApiKey env = .ok apiKey)
    (hmiss : (getCache c (tmEventsKey apiKey (tmCountry env) input) now).1 = none)
    (hok : resp.ok = true) :
    searchTmEventsUk env c now resp input =
      ⟨.ok resp.json,
       setCache (getCache c (tmEventsKey apiKey (tmCountry env) input) now).2
         (tmEventsKey apiKey (tmCountry env) input) resp.json now tmSearchTtlMs,
       some ⟨"events.json", tmEventsQuery apiKey (tmCountry env) input⟩⟩ := by
  simp [searchTmEventsUk, hreq, jsTruthyOpt, hmiss, hok]

theorem searchTmEventsUk_miss_fail (env : TmEnv) (c : CacheMap Json) (now : Nat)
    (resp : HttpResponse) (input : TmEventsInput) (apiKey : String)
    (hreq : requireApiKey env = .ok apiKey)
    (hmiss : (getCache c (tmEventsKey apiKey (tmCountry env) input) now).1 = none)
    (hfail : resp.ok = false) :
    searchTmEventsUk env c now resp input =
      ⟨.error ("Ticketmaster error " ++ toString resp.status ++ ": " ++
          (if resp.bodyText.getD "" == "" then resp.statusText else resp.bodyText.getD "")),
       (getCache c (tmEventsKey apiKey (tmCountry env) input) now).2,
       some ⟨"events.json", tmEventsQuery apiKey (tmCountry env) input⟩⟩ := by
  simp [searchTmEventsUk, hreq, jsTruthyOpt, hmiss, hfail]

theorem getTmEventByIdUk_miss_ok (env : TmEnv) (c : CacheMap Json) (now : Nat)
    (resp : HttpResponse) (eventId : String) (apiKey : String)
    (hreq : requireApiKey env = .ok apiKey)
    (hmiss : (getCache c (tmEventByIdKey apiKey (tmCountry env) eventId) now).1 = none)
    (hok : resp.ok = true) :
    getTmEventByIdUk env c now resp eventId =
      ⟨.ok resp.json,
       setCache (getCache c (tmEventByIdKey apiKey (tmCountry env) eventId) now).2
         (tmEventByIdKey apiKey (tmCountry env) eventId) resp.json now tmEventByIdTtlMs,
       some ⟨"events/" ++ eventId ++ ".json", tmEventByIdQuery apiKey (tmCountry env)⟩⟩ := by
  simp [getTmEventByIdUk, hreq, jsTruthyOpt, hmiss, hok]

theorem getTmEventByIdUk_miss_fail (env : TmEnv) (c : CacheMap Json) (now : Nat)
    (resp : HttpResponse) (eventId : String) (apiKey : String)
    (hreq : requireApiKey env = .ok apiKey)
    (hmiss : (getCache c (tmEventByIdKey apiKey (tmCountry env) eventId) now).1 = none)
    (hfail : resp.ok = false) :
    getTmEventByIdUk env c now resp eventId =
      ⟨.error ("Ticketmaster error " ++ toString resp.status ++ ": " ++
          (if resp.bodyText.getD "" == "" then resp.statusText else resp.bodyText.getD "")),
       (getCache c (tmEventByIdKey apiKey (tmCountry env) eventId) now).2,
       some ⟨"events/" ++ eventId ++ ".json", tmEventByIdQuery apiKey (tmCountry env)⟩⟩ := by
  simp [getTmEventByIdUk, hreq, jsTruthyOpt, hmiss, hfail]

theorem searchTmVenuesUk_miss_ok (env : TmEnv) (c : CacheMap Json) (now : Nat)
    (resp : HttpResponse) (input : TmVenuesInput) (apiKey : String)
    (hreq : requireApiKey env = .ok apiKey)
    (hq : jsTrim (input.q.getD "") ≠ "")
    (hmiss : (getCache c
        (tmVenuesKey apiKey (tmCountry env) (jsTrim (input.q.getD "")) input) now).1 = none)
    (hok : resp.ok = true) :
    searchTmVenuesUk env c now resp input =
      ⟨.ok (Json.obj [("venues", .arr ((tmEmbeddedVenues resp.json).map tmNormalizeVenue))]),
       setCache
         (getCache c (tmVenuesKey apiKey (tmCountry env) (jsTrim (input.q.getD "")) input) now).2
         (tmVenuesKey apiKey (tmCountry env) (jsTrim (input.q.getD "")) input)
         (Json.obj [("venues", .arr ((tmEmbeddedVenues resp.json).map tmNormalizeVenue))])
         now tmVenuesTtlMs,
       some ⟨"venues.json", tmVenuesQuery apiKey (tmCountry env) (jsTrim (input.q.getD "")) input⟩⟩ := by
  simp [searchTmVenuesUk, hreq, jsTruthyOpt, hq, hmiss, hok]

theorem searchTmVenuesUk_miss_fail (env : TmEnv) (c : CacheMap Json) (now : Nat)
    (resp : HttpResponse) (input : TmVenuesInput) (apiKey : String)
    (hreq : requireApiKey env = .ok apiKey)
    (hq : jsTrim (input.q.getD "") ≠ "")
    (hmiss : (getCache c
        (tmVenuesKey apiKey (tmCountry env) (jsTrim (input.q.getD "")) input) now).1 = none)
    (hfail : resp.ok = false) :
    searchTmVenuesUk env c now resp input =
      ⟨.error ("Ticketmaster error " ++ toString resp.status ++ ": " ++
          (if resp.bodyText.getD "" == "" then resp.statusText else resp.bodyText.getD "")),
       (getCache c (tmVenuesKey apiKey (tmCountry env) (jsTrim (input.q.getD "")) input) now).2,
       some ⟨"venues.json", tmVenuesQuery apiKey (tmCountry env) (jsTrim (input.q.getD "")) input⟩⟩ := by
  simp [searchTmVenuesUk, hreq, jsTruthyOpt, hq, hmiss, hfail]

theorem searchMbArtists_miss_ok (env : MbEnv) (c : CacheMap MbPayload) (now : Nat)
    (resp : MbHttpResponse) (params : MbParams)
    (hmiss : (getCache c (mbCacheKey (jsTrim params.q) (mbLimit params.limit)) now).1 = none)
    (hok : resp.ok = true) :
    searchMbArtists env c now resp params =
      ⟨.ok ⟨((resp.data.artists.getD []).map mbNormalize).length,
            (resp.data.artists.getD []).map mbNormalize⟩,
       setCache (getCache c (mbCacheKey (jsTrim params.q) (mbLimit params.limit)) now).2
         (mbCacheKey (jsTrim params.q) (mbLimit params.limit))
         ⟨((resp.data.artists.getD []).map mbNormalize).length,
          (resp.data.artists.getD []).map mbNormalize⟩ now ONE_DAY_MS,
       some ⟨"artist:" ++ jsTrim params.q, mbLimit params.limit, getUserAgent env⟩⟩ := by
  simp [searchMbArtists, hmiss, hok]

theorem searchMbArtists_miss_fail (env : MbEnv) (c : CacheMap MbPayload) (now : Nat)
    (resp : MbHttpResponse) (params : MbParams)
    (hmiss : (getCache c (mbCacheKey (jsTrim params.q) (mbLimit params.limit)) now).1 = none)
    (hfail : resp.ok = false) :
    searchMbArtists env c now resp params =
      ⟨.error ("MusicBrainz " ++ toString resp.status ++ ": " ++
          (if resp.bodyText.getD "" == "" then resp.statusText else resp.bodyText.getD "")),
       (getCache c (mbCacheKey (jsTrim params.q) (mbLimit params.limit)) now).2,
       some ⟨"artist:" ++ jsTrim params.q, mbLimit params.limit, getUserAgent env⟩⟩ := by
  simp [searchMbArtists, hmiss, hfail]

/-! ## Claim C3: cache path

`searchTmEventsUk` stores the upstream JSON verbatim and guards the cache
path with the JS truthiness test `if (cached) return cached;`.  A fresh
entry whose stored value is falsy (e.g. the valid JSON body `false`) is
therefore not served: the operation performs another outbound call. -/

def tmCexEnv : TmEnv := ⟨some "K", none⟩

def tmCexInput : TmEventsInput := ⟨none, none, none, none, none⟩

/-- First response: success whose JSON body is the falsy value `false`. -/
def tmCexRespFalse : HttpResponse := ⟨true, 200, "OK", none, Json.bool false⟩

/-- Second response (would not be needed if the fresh entry were served). -/
def tmCexResp2 : HttpResponse := ⟨true, 200, "OK", none, Json.str "fresh"⟩

def tmCexKey : String := tmEventsKey "K" "GB" tmCexInput

/-- C3 counterexample: after a first `searchTmEventsUk` call at `t = 0`
cached the falsy JSON body `false`, a second identical call at `t = 60000`
(well inside the 30-minute TTL) finds the fresh entry — yet still performs
an outbound HTTP call instead of returning the cached value. -/
theorem tmEvents_falsy_cached_value_refetched :
    (getCache (searchTmEventsUk tmCexEnv [] 0 tmCexRespFalse tmCexInput).cache
        tmCexKey 60000).1 = some (Json.bool false) ∧
    (searchTmEventsUk tmCexEnv
        (searchTmEventsUk tmCexEnv [] 0 tmCexRespFalse tmCexInput).cache
        60000 tmCexResp2 tmCexInput).request.isSome = true :=
  ⟨rfl, rfl⟩

/-- C3 (amended): a fresh cache entry whose stored value is truthy is
returned verbatim with no outbound call and no cache change — for the
artist-catalog operation any stored payload qualifies (its payloads are
objects, hence truthy) — and two identical `searchTmEventsUk` calls within
the 30-minute TTL window whose first response body is truthy cause exactly
one upstream call. -/
theorem proxy_fresh_truthy_hit_served_verbatim :
    (∀ (env : TmEnv) (c : CacheMap Json) (now : Nat) (resp : HttpResponse)
        (input : TmEventsInput) (apiKey : String) (v : Json),
      requireApiKey env = .ok apiKey →
      (getCache c (tmEventsKey apiKey (tmCountry env) input) now).1 = some v →
      v.truthy = true →
      searchTmEventsUk env c now resp input = ⟨.ok v, c, none⟩) ∧
    (∀ (env : TmEnv) (c : CacheMap Json) (now : Nat) (resp : HttpResponse)
        (eventId : String) (apiKey : String) (v : Json),
      requireApiKey env = .ok apiKey →
      (getCache c (tmEventByIdKey apiKey (tmCountry env) eventId) now).1 = some v →
      v.truthy = true →
      getTmEventByIdUk env c now resp eventId = ⟨.ok v, c, none⟩) ∧
    (∀ (env : TmEnv) (c : CacheMap Json) (now : Nat) (resp : HttpResponse)
        (input : TmVenuesInput) (apiKey : String) (v : Json),
      requireApiKey env = .ok apiKey →
      jsTrim (input.q.getD "") ≠ "" →
      (getCache c (tmVenuesKey apiKey (tmCountry env) (jsTrim (input.q.getD "")) input)
          now).1 = some v →
      v.truthy = true →
      searchTmVenuesUk env c now resp input = ⟨.ok v, c, none⟩) ∧
    (∀ (env : MbEnv) (c : CacheMap MbPayload) (now : Nat) (resp : MbHttpResponse)
        (params : MbParams) (p : MbPayload),
      (getCache c (mbCacheKey (jsTrim params.q) (mbLimit params.limit)) now).1 = some p →
      searchMbArtists env c now resp params = ⟨.ok p, c, none⟩) ∧
    (∀ (env : TmEnv) (c : CacheMap Json) (input : TmEventsInput) (apiKey : String)
        (t1 t2 : Nat) (resp1 resp2 : HttpResponse),
      requireApiKey env = .ok apiKey →
      (getCache c (tmEventsKey apiKey (tmCountry env) input) t1).1 = none →
      resp1.ok = true →
      resp1.json.truthy = true →
      t2 ≤ t1 + tmSearchTtlMs →
      (searchTmEventsUk env c t1 resp1 input).request.isSome = true ∧
      searchTmEventsUk env (searchTmEventsUk env c t1 resp1 input).cache t2 resp2 input =
        ⟨.ok resp1.json, (searchTmEventsUk env c t1 resp1 input).cache, none⟩) := by
  refine ⟨?_, ?_, ?_, ?_, ?_⟩
  · intro env c now resp input apiKey v hreq hget htruthy
    have hg := getCache_eq_of_fst_some hget
    simp [searchTmEventsUk, hreq, hg, jsTruthyOpt, htruthy]
  · intro env c now resp eventId apiKey v hreq hget htruthy
    have hg := getCache_eq_of_fst_some hget
    simp [getTmEventByIdUk, hreq, hg, jsTruthyOpt, htruthy]
  · intro env c now resp input apiKey v hreq hq hget htruthy
    have hg := getCache_eq_of_fst_some hget
    simp [searchTmVenuesUk, hreq, hq, hg, jsTruthyOpt, htruthy]
  · intro env c now resp params p hget
    have hg := getCache_eq_of_fst_some hget
    simp [searchMbArtists, hg]
  · intro env c input apiKey t1 t2 resp1 resp2 hreq hmiss hok1 htr ht2
    have h1 := searchTmEventsUk_miss_ok env c t1 resp1 input apiKey hreq hmiss hok1
    constructor
    · rw [h1]
      rfl
    · have hl : cacheLookup (searchTmEventsUk env c t1 resp1 input).cache
          (tmEventsKey apiKey (tmCountry env) input) =
          some ⟨resp1.json, t1 + tmSearchTtlMs⟩ := by
        rw [h1]
        exact cacheLookup_insert_self _ _ _
      have hget2 : (getCache (searchTmEventsUk env c t1 resp1 input).cache
          (tmEventsKey apiKey (tmCountry env) input) t2).1 = some resp1.json := by
        rw [getCache_lookup_some t2 hl]
        have hne : ¬ t2 > (⟨resp1.json, t1 + tmSearchTtlMs⟩ : CacheEntry Json).expiresAt := by
          simp only [CacheEntry.expiresAt]
          omega
        rw [if_neg hne]
      have hg2 := getCache_eq_of_fst_some hget2
      generalize hc2 : (searchTmEventsUk env c t1 resp1 input).cache = c2 at hg2 ⊢
      simp [searchTmEventsUk, hreq, hg2, jsTruthyOpt, htr]

theorem proxy_fresh_truthy_hit_witness :
    (searchTmEventsUk tmCexEnv
        [(tmCexKey, ⟨Json.str "cached-events", 1000⟩)] 400 tmCexResp2 tmCexInput =
      ⟨.ok (Json.str "cached-events"),
       [(tmCexKey, ⟨Json.str "cached-events", 1000⟩)], none⟩) ∧
    (getTmEventByIdUk tmCexEnv
        [(tmEventByIdKey "K" "GB" "E1", ⟨Json.str "cached-event", 1000⟩)] 400 tmCexResp2 "E1" =
      ⟨.ok (Json.str "cached-event"),
       [(tmEventByIdKey "K" "GB" "E1", ⟨Json.str "cached-event", 1000⟩)], none⟩) ∧
    (searchTmVenuesUk tmCexEnv
        [(tmVenuesKey "K" "GB" "v" ⟨some "v", none, none⟩, ⟨Json.str "cached-venues", 1000⟩)]
        400 tmCexResp2 ⟨some "v", none, none⟩ =
      ⟨.ok (Json.str "cached-venues"),
       [(tmVenuesKey "K" "GB" "v" ⟨some "v", none, none⟩, ⟨Json.str "cached-venues", 1000⟩)],
       none⟩) ∧
    (searchMbArtists ⟨none⟩
        [("mb:artist:x:8", ⟨⟨0, []⟩, 1000⟩)] 400 ⟨true, 200, "OK", none, ⟨none⟩⟩ ⟨"x", none⟩ =
      ⟨.ok ⟨0, []⟩, [("mb:artist:x:8", ⟨⟨0, []⟩, 1000⟩)], none⟩) ∧
    ((searchTmEventsUk tmCexEnv [] 0 tmCexResp2 tmCexInput).request.isSome = true ∧
      searchTmEventsUk tmCexEnv (searchTmEventsUk tmCexEnv [] 0 tmCexResp2 tmCexInput).cache
          60000 tmCexRespFalse tmCexInput =
        ⟨.ok tmCexResp2.json, (searchTmEventsUk tmCexEnv [] 0 tmCexResp2 tmCexInput).cache,
         none⟩) :=
  ⟨proxy_fresh_truthy_hit_served_verbatim.1 tmCexEnv _ 400 tmCexResp2 tmCexInput "K"
      (Json.str "cached-events") rfl rfl rfl,
   proxy_fresh_truthy_hit_served_verbatim.2.1 tmCexEnv _ 400 tmCexResp2 "E1" "K"
      (Json.str "cached-event") rfl rfl rfl,
   proxy_fresh_truthy_hit_served_verbatim.2.2.1 tmCexEnv _ 400 tmCexResp2
      ⟨some "v", none, none⟩ "K" (Json.str "cached-venues") rfl (by decide) rfl rfl,
   proxy_fresh_truthy_hit_served_verbatim.2.2.2.1 ⟨none⟩ _ 400 ⟨true, 200, "OK", none, ⟨none⟩⟩
      ⟨"x", none⟩ ⟨0, []⟩ rfl,
   proxy_fresh_truthy_hit_served_verbatim.2.2.2.2 tmCexEnv [] tmCexInput "K" 0 60000
      tmCexResp2 tmCexRespFalse rfl rfl rfl rfl (by decide)⟩

/-! ## Claim C4: TTL policy -/

/-- C4 counterexample: the artist search — a search-style listing — caches
its result with `ONE_DAY_MS` = 24 hours: the call below stores an entry that
expires a full day later, which is not "tens of minutes" under any reading
(it is not even below 100 minutes). -/
theorem mbArtists_search_ttl_is_a_day :
    (cacheLookup (searchMbArtists ⟨none⟩ [] 0 ⟨true, 200, "OK", none, ⟨none⟩⟩
          ⟨"x", none⟩).cache "mb:artist:x:8").map (fun e => e.expiresAt) =
      some 86400000 ∧
    ONE_DAY_MS = 86400000 ∧
    ¬ (ONE_DAY_MS ≤ 100 * 60 * 1000) :=
  ⟨rfl, rfl, by decide⟩

/-- C4 (amended): the TTLs are operation-specific — event search 30 minutes
and venue search 60 minutes (short-lived listings of the events catalog),
get-event-by-id 24 hours, and artist search also 24 hours (long-lived, equal
to the get-by-id TTL, not tens of minutes). -/
theorem ttl_policy_per_operation :
    (∀ (env : TmEnv) (c : CacheMap Json) (now : Nat) (resp : HttpResponse)
        (input : TmEventsInput) (apiKey : String),
      requireApiKey env = .ok apiKey →
      (getCache c (tmEventsKey apiKey (tmCountry env) input) now).1 = none →
      resp.ok = true →
      (cacheLookup (searchTmEventsUk env c now resp input).cache
          (tmEventsKey apiKey (tmCountry env) input)).map (fun e => e.expiresAt) =
        some (now + tmSearchTtlMs)) ∧
    (∀ (env : TmEnv) (c : CacheMap Json) (now : Nat) (resp : HttpResponse)
        (eventId : String) (apiKey : String),
      requireApiKey env = .ok apiKey →
      (getCache c (tmEventByIdKey apiKey (tmCountry env) eventId) now).1 = none →
      resp.ok = true →
      (cacheLookup (getTmEventByIdUk env c now resp eventId).cache
          (tmEventByIdKey apiKey (tmCountry env) eventId)).map (fun e => e.expiresAt) =
        some (now + tmEventByIdTtlMs)) ∧
    (∀ (env : TmEnv) (c : CacheMap Json) (now : Nat) (resp : HttpResponse)
        (input : TmVenuesInput) (apiKey : String),
      requireApiKey env = .ok apiKey →
      jsTrim (input.q.getD "") ≠ "" →
      (getCache c (tmVenuesKey apiKey (tmCountry env) (jsTrim (input.q.getD "")) input)
          now).1 = none →
      resp.ok = true →
      (cacheLookup (searchTmVenuesUk env c now resp input).cache
          (tmVenuesKey apiKey (tmCountry env) (jsTrim (input.q.getD "")) input)).map
          (fun e => e.expiresAt) =
        some (now + tmVenuesTtlMs)) ∧
    (∀ (env : MbEnv) (c : CacheMap MbPayload) (now : Nat) (resp : MbHttpResponse)
        (params : MbParams),
      (getCache c (mbCacheKey (jsTrim params.q) (mbLimit params.limit)) now).1 = none →
      resp.ok = true →
      (cacheLookup (searchMbArtists env c now resp params).cache
          (mbCacheKey (jsTrim params.q) (mbLimit params.limit))).map
          (fun e => e.expiresAt) =
        some (now + ONE_DAY_MS)) ∧
    tmSearchTtlMs = 30 * 60 * 1000 ∧
    tmVenuesTtlMs = 60 * 60 * 1000 ∧
    tmEventByIdTtlMs = 24 * 60 * 60 * 1000 ∧
    ONE_DAY_MS = tmEventByIdTtlMs := by
  refine ⟨?_, ?_, ?_, ?_, rfl, rfl, rfl, rfl⟩
  · intro env c now resp input apiKey hreq hmiss hok
    rw [searchTmEventsUk_miss_ok env c now resp input apiKey hreq hmiss hok]
    simp [setCache, cacheLookup_insert_self]
  · intro env c now resp eventId apiKey hreq hmiss hok
    rw [getTmEventByIdUk_miss_ok env c now resp eventId apiKey hreq hmiss hok]
    simp [setCache, cacheLookup_insert_self]
  · intro env c now resp input apiKey hreq hq hmiss hok
    rw [searchTmVenuesUk_miss_ok env c now resp input apiKey hreq hq hmiss hok]
    simp [setCache, cacheLookup_insert_self]
  · intro env c now resp params hmiss hok
    rw [searchMbArtists_miss_ok env c now resp params hmiss hok]
    simp [setCache, cacheLookup_insert_self]

theorem ttl_policy_per_operation_witness :
    (cacheLookup (searchTmEventsUk tmCexEnv [] 0 tmCexResp2 tmCexInput).cache
        (tmEventsKey "K" (tmCountry tmCexEnv) tmCexInput)).map (fun e => e.expiresAt) =
      some (0 + tmSearchTtlMs) ∧
    (cacheLookup (getTmEventByIdUk tmCexEnv [] 0 tmCexResp2 "E1").cache
        (tmEventByIdKey "K" (tmCountry tmCexEnv) "E1")).map (fun e => e.expiresAt) =
      some (0 + tmEventByIdTtlMs) ∧
    (cacheLookup (searchTmVenuesUk tmCexEnv [] 0 tmCexResp2 ⟨some "v", none, none⟩).cache
        (tmVenuesKey "K" (tmCountry tmCexEnv) (jsTrim ((some "v").getD "")) ⟨some "v", none, none⟩)).map
        (fun e => e.expiresAt) =
      some (0 + tmVenuesTtlMs) ∧
    (cacheLookup (searchMbArtists ⟨none⟩ [] 0 ⟨true, 200, "OK", none, ⟨none⟩⟩ ⟨"x", none⟩).cache
        (mbCacheKey (jsTrim "x") (mbLimit none))).map (fun e => e.expiresAt) =
      some (0 + ONE_DAY_MS) :=
  ⟨ttl_policy_per_operation.1 tmCexEnv [] 0 tmCexResp2 tmCexInput "K" rfl rfl rfl,
   ttl_policy_per_operation.2.1 tmCexEnv [] 0 tmCexResp2 "E1" "K" rfl rfl rfl,
   ttl_policy_per_operation.2.2.1 tmCexEnv [] 0 tmCexResp2 ⟨some "v", none, none⟩ "K"
      rfl (by decide) rfl rfl,
   ttl_policy_per_operation.2.2.2.1 ⟨none⟩ [] 0 ⟨true, 200, "OK", none, ⟨none⟩⟩
      ⟨"x", none⟩ rfl rfl⟩

/-! ## Claim C5: failures carry status and body text and are not cached -/

/-- C5: reached on a cache miss, a non-success upstream response makes every
operation fail with the formatted upstream error (status code plus
best-effort body text, falling back to the status text), write nothing to
the cache — afterwards no entry is stored under the key (the only change the
call can have made is the lazy eviction the lookup itself performed) — so a
subsequent identical request performs an outbound call again. -/
theorem upstream_failure_not_cached :
    (∀ (env : TmEnv) (c : CacheMap Json) (now : Nat) (resp : HttpResponse)
        (input : TmEventsInput) (apiKey : String),
      requireApiKey env = .ok apiKey →
      (getCache c (tmEventsKey apiKey (tmCountry env) input) now).1 = none →
      resp.ok = false →
      searchTmEventsUk env c now resp input =
        ⟨.error ("Ticketmaster error " ++ toString resp.status ++ ": " ++
            (if resp.bodyText.getD "" == "" then resp.statusText else resp.bodyText.getD "")),
         (getCache c (tmEventsKey apiKey (tmCountry env) input) now).2,
         some ⟨"events.json", tmEventsQuery apiKey (tmCountry env) input⟩⟩ ∧
      cacheLookup (searchTmEventsUk env c now resp input).cache
          (tmEventsKey apiKey (tmCountry env) input) = none ∧
      (∀ (now2 : Nat) (resp2 : HttpResponse),
        (searchTmEventsUk env (searchTmEventsUk env c now resp input).cache
            now2 resp2 input).request.isSome = true)) ∧
    (∀ (env : TmEnv) (c : CacheMap Json) (now : Nat) (resp : HttpResponse)
        (eventId : String) (apiKey : String),
      requireApiKey env = .ok apiKey →
      (getCache c (tmEventByIdKey apiKey (tmCountry env) eventId) now).1 = none →
      resp.ok = false →
      getTmEventByIdUk env c now resp eventId =
        ⟨.error ("Ticketmaster error " ++ toString resp.status ++ ": " ++
            (if resp.bodyText.getD "" == "" then resp.statusText else resp.bodyText.getD "")),
         (getCache c (tmEventByIdKey apiKey (tmCountry env) eventId) now).2,
         some ⟨"events/" ++ eventId ++ ".json", tmEventByIdQuery apiKey (tmCountry env)⟩⟩ ∧
      cacheLookup (getTmEventByIdUk env c now resp eventId).cache
          (tmEventByIdKey apiKey (tmCountry env) eventId) = none ∧
      (∀ (now2 : Nat) (resp2 : HttpResponse),
        (getTmEventByIdUk env (getTmEventByIdUk env c now resp eventId).cache
            now2 resp2 eventId).request.isSome = true)) ∧
    (∀ (env : TmEnv) (c : CacheMap Json) (now : Nat) (resp : HttpResponse)
        (input : TmVenuesInput) (apiKey : String),
      requireApiKey env = .ok apiKey →
      jsTrim (input.q.getD "") ≠ "" →
      (getCache c (tmVenuesKey apiKey (tmCountry env) (jsTrim (input.q.getD "")) input)
          now).1 = none →
      resp.ok = false →
      searchTmVenuesUk env c now resp input =
        ⟨.error ("Ticketmaster error " ++ toString resp.status ++ ": " ++
            (if resp.bodyText.getD "" == "" then resp.statusText else resp.bodyText.getD "")),
         (getCache c (tmVenuesKey apiKey (tmCountry env) (jsTrim (input.q.getD "")) input) now).2,
         some ⟨"venues.json", tmVenuesQuery apiKey (tmCountry env) (jsTrim (input.q.getD "")) input⟩⟩ ∧
      cacheLookup (searchTmVenuesUk env c now resp input).cache
          (tmVenuesKey apiKey (tmCountry env) (jsTrim (input.q.getD "")) input) = none ∧
      (∀ (now2 : Nat) (resp2 : HttpResponse),
        (searchTmVenuesUk env (searchTmVenuesUk env c now resp input).cache
            now2 resp2 input).request.isSome = true)) ∧
    (∀ (env : MbEnv) (c : CacheMap MbPayload) (now : Nat) (resp : MbHttpResponse)
        (params : MbParams),
      (getCache c (mbCacheKey (jsTrim params.q) (mbLimit params.limit)) now).1 = none →
      resp.ok = false →
      searchMbArtists env c now resp params =
        ⟨.error ("MusicBrainz " ++ toString resp.status ++ ": " ++
            (if resp.bodyText.getD "" == "" then resp.statusText else resp.bodyText.getD "")),
         (getCache c (mbCacheKey (jsTrim params.q) (mbLimit params.limit)) now).2,
         some ⟨"artist:" ++ jsTrim params.q, mbLimit params.limit, getUserAgent env⟩⟩ ∧
      cacheLookup (searchMbArtists env c now resp params).cache
          (mbCacheKey (jsTrim params.q) (mbLimit params.limit)) = none ∧
      (∀ (now2 : Nat) (resp2 : MbHttpResponse),
        (searchMbArtists env (searchMbArtists env c now resp params).cache
            now2 resp2 params).request.isSome = true)) := by
  refine ⟨?_, ?_, ?_, ?_⟩
  · intro env c now resp input apiKey hreq hmiss hfail
    have h1 := searchTmEventsUk_miss_fail env c now resp input apiKey hreq hmiss hfail
    refine ⟨h1, ?_, ?_⟩
    · rw [h1]
      exact getCache_miss_no_entry hmiss
    · intro now2 resp2
      have hl2 : cacheLookup (searchTmEventsUk env c now resp input).cache
          (tmEventsKey apiKey (tmCountry env) input) = none := by
        rw [h1]
        exact getCache_miss_no_entry hmiss
      have hg2 := getCache_lookup_none now2 hl2
      generalize hc2 : (searchTmEventsUk env c now resp input).cache = c2 at hg2 ⊢
      cases hok2 : resp2.ok
      · simp [searchTmEventsUk, hreq, hg2, jsTruthyOpt, hok2]
      · simp [searchTmEventsUk, hreq, hg2, jsTruthyOpt, hok2]
  · intro env c now resp eventId apiKey hreq hmiss hfail
    have h1 := getTmEventByIdUk_miss_fail env c now resp eventId apiKey hreq hmiss hfail
    refine ⟨h1, ?_, ?_⟩
    · rw [h1]
      exact getCache_miss_no_entry hmiss
    · intro now2 resp2
      have hl2 : cacheLookup (getTmEventByIdUk env c now resp eventId).cache
          (tmEventByIdKey apiKey (tmCountry env) eventId) = none := by
        rw [h1]
        exact getCache_miss_no_entry hmiss
      have hg2 := getCache_lookup_none now2 hl2
      generalize hc2 : (getTmEventByIdUk env c now resp eventId).cache = c2 at hg2 ⊢
      cases hok2 : resp2.ok
      · simp [getTmEventByIdUk, hreq, hg2, jsTruthyOpt, hok2]
      · simp [getTmEventByIdUk, hreq, hg2, jsTruthyOpt, hok2]
  · intro env c now resp input apiKey hreq hq hmiss hfail
    have h1 := searchTmVenuesUk_miss_fail env c now resp input apiKey hreq hq hmiss hfail
    refine ⟨h1, ?_, ?_⟩
    · rw [h1]
      exact getCache_miss_no_entry hmiss
    · intro now2 resp2
      have hl2 : cacheLookup (searchTmVenuesUk env c now resp input).cache
          (tmVenuesKey apiKey (tmCountry env) (jsTrim (input.q.getD "")) input) = none := by
        rw [h1]
        exact getCache_miss_no_entry hmiss
      have hg2 := getCache_lookup_none now2 hl2
      generalize hc2 : (searchTmVenuesUk env c now resp input).cache = c2 at hg2 ⊢
      cases hok2 : resp2.ok
      · simp [searchTmVenuesUk, hreq, hq, hg2, jsTruthyOpt, hok2]
      · simp [searchTmVenuesUk, hreq, hq, hg2, jsTruthyOpt, hok2]
  · intro env c now resp params hmiss hfail
    have h1 := searchMbArtists_miss_fail env c now resp params hmiss hfail
    refine ⟨h1, ?_, ?_⟩
    · rw [h1]
      exact getCache_miss_no_entry hmiss
    · intro now2 resp2
      have hl2 : cacheLookup (searchMbArtists env c now resp params).cache
          (mbCacheKey (jsTrim params.q) (mbLimit params.limit)) = none := by
        rw [h1]
        exact getCache_miss_no_entry hmiss
      have hg2 := getCache_lookup_none now2 hl2
      generalize hc2 : (searchMbArtists env c now resp params).cache = c2 at hg2 ⊢
      cases hok2 : resp2.ok
      · simp [searchMbArtists, hg2, hok2]
      · simp [searchMbArtists, hg2, hok2]

/-- A failing upstream response used by the C5 witness. -/
def tmFailResp : HttpResponse := ⟨false, 503, "Service Unavailable", some "overloaded", Json.null⟩

/-- A failing MusicBrainz response (body text unavailable). -/
def mbFailResp : MbHttpResponse := ⟨false, 503, "Service Unavailable", none, ⟨none⟩⟩

theorem upstream_failure_not_cached_witness :
    (searchTmEventsUk tmCexEnv [] 0 tmFailResp tmCexInput =
      ⟨.error "Ticketmaster error 503: overloaded", [],
       some ⟨"events.json", tmEventsQuery "K" (tmCountry tmCexEnv) tmCexInput⟩⟩) ∧
    cacheLookup (searchTmEventsUk tmCexEnv [] 0 tmFailResp tmCexInput).cache
        (tmEventsKey "K" (tmCountry tmCexEnv) tmCexInput) = none ∧
    (searchTmEventsUk tmCexEnv (searchTmEventsUk tmCexEnv [] 0 tmFailResp tmCexInput).cache
        5 tmFailResp tmCexInput).request.isSome = true ∧
    (getTmEventByIdUk tmCexEnv [] 0 tmFailResp "E1" =
      ⟨.error "Ticketmaster error 503: overloaded", [],
       some ⟨"events/E1.json", tmEventByIdQuery "K" (tmCountry tmCexEnv)⟩⟩) ∧
    (searchTmVenuesUk tmCexEnv [] 0 tmFailResp ⟨some "v", none, none⟩ =
      ⟨.error "Ticketmaster error 503: overloaded", [],
       some ⟨"venues.json",
             tmVenuesQuery "K" (tmCountry tmCexEnv) (jsTrim ((some "v").getD ""))
               ⟨some "v", none, none⟩⟩⟩) ∧
    (searchMbArtists ⟨none⟩ [] 0 mbFailResp ⟨"x", none⟩ =
      ⟨.error "MusicBrainz 503: Service Unavailable", [],
       some ⟨"artist:x", 8, getUserAgent ⟨none⟩⟩⟩) :=
  ⟨(upstream_failure_not_cached.1 tmCexEnv [] 0 tmFailResp tmCexInput "K" rfl rfl rfl).1,
   (upstream_failure_not_cached.1 tmCexEnv [] 0 tmFailResp tmCexInput "K" rfl rfl rfl).2.1,
   (upstream_failure_not_cached.1 tmCexEnv [] 0 tmFailResp tmCexInput "K" rfl rfl rfl).2.2
      5 tmFailResp,
   (upstream_failure_not_cached.2.1 tmCexEnv [] 0 tmFailResp "E1" "K" rfl rfl rfl).1,
   (upstream_failure_not_cached.2.2.1 tmCexEnv [] 0 tmFailResp ⟨some "v", none, none⟩ "K"
      rfl (by decide) rfl rfl).1,
   (upstream_failure_not_cached.2.2.2 ⟨none⟩ [] 0 mbFailResp ⟨"x", none⟩ rfl rfl).1⟩

/-! ## Claim C1: the rate limiter (`throttleOneReqPerSec`, `src/musicbrainz.ts`)

```
let lastRequestAt = 0;
async function throttleOneReqPerSec() {
  const now = Date.now();
  const delta = now - lastRequestAt;
  if (delta < 1000) await sleep(1000 - delta);
  lastRequestAt = Date.now();
}
```

The `await sleep(...)` is the only suspension point: the function runs
atomically up to it, and its continuation — `lastRequestAt = Date.now()`,
after which `searchMbArtists` immediately starts its fetch — runs atomically
when the timer fires.  We embed one invocation as a task with three phases
and execute any cooperative interleaving of such tasks over the shared
`lastRequestAt`.  Timers fire exactly at their deadline. -/

/-- One `throttleOneReqPerSec` invocation, split at its only `await`. -/
inductive ThrottlePhase where
  | ready
  | sleeping (wakeAt : Nat)
  | finished (fetchStart : Nat)
deriving Repr, DecidableEq, BEq

/-- The segment before the `await`, entered at time `now` with the shared
`lastRequestAt` equal to `last`.  Returns the new phase and the new
`lastRequestAt`.  With `delta < 1000` the caller suspends until
`now + (1000 - delta)` and `lastRequestAt` is NOT yet written; otherwise the
invocation completes synchronously, writes `lastRequestAt = Date.now()` and
the fetch starts. -/
def throttleStart (now last : Nat) : ThrottlePhase × Nat :=
  let delta := now - last
  if delta < 1000 then (.sleeping (now + (1000 - delta)), last)
  else (.finished now, now)

/-- The continuation after `sleep` resolves at `wakeAt`:
`lastRequestAt = Date.now()` and the fetch starts. -/
def throttleWake (wakeAt : Nat) : ThrottlePhase × Nat :=
  (.finished wakeAt, wakeAt)

/-- The shared module state plus the phases of the in-flight invocations. -/
structure ThrottleSystem where
  lastRequestAt : Nat
  tasks : List ThrottlePhase
deriving Repr, DecidableEq

/-- A scheduler event of the cooperative run: task `tid` enters the throttle
at `time`, or its sleep timer fires at `time`. -/
inductive SchedEvent where
  | start (tid : Nat) (time : Nat)
  | wake (tid : Nat) (time : Nat)
deriving Repr, DecidableEq

def SchedEvent.time : SchedEvent → Nat
  | .start _ t => t
  | .wake _ t => t

/-- Execute one event (the single-threaded event loop runs each segment
atomically). -/
def stepThrottle (s : ThrottleSystem) : SchedEvent → ThrottleSystem
  | .start tid t =>
      match s.tasks.get? tid with
      | some .ready =>
          let r := throttleStart t s.lastRequestAt
          ⟨r.2, s.tasks.set tid r.1⟩
      | _ => s
  | .wake tid _ =>
      match s.tasks.get? tid with
      | some (.sleeping w) =>
          let r := throttleWake w
          ⟨r.2, s.tasks.set tid r.1⟩
      | _ => s

def runThrottle (s : ThrottleSystem) (evs : List SchedEvent) : ThrottleSystem :=
  evs.foldl stepThrottle s

/-- A well-formed cooperative schedule starting at `clock`: event times never
decrease, a `start` finds its task not yet begun, and a `wake` fires exactly
at the pending deadline of its sleeping task. -/
def validSchedule (clock : Nat) (s : ThrottleSystem) : List SchedEvent → Bool
  | [] => true
  | e :: es =>
      decide (clock ≤ e.time) &&
      (match e with
       | .start tid _ => s.tasks.get? tid == some .ready
       | .wake tid t => s.tasks.get? tid == some (.sleeping t)) &&
      validSchedule e.time (stepThrottle s e) es

/-- Two callers entering the throttle 500 ms and 600 ms after a module state
with `lastRequestAt = 0`. -/
def throttleCexInit : ThrottleSystem := ⟨0, [.ready, .ready]⟩

/-- The interleaving the single-threaded event loop produces: caller 0 reads
`lastRequestAt = 0` at t=500 and sleeps until t=1000; while it sleeps,
caller 1 reads the still-unchanged `lastRequestAt = 0` at t=600 and sleeps
until t=1000 as well; both timers fire at t=1000. -/
def throttleCexEvents : List SchedEvent :=
  [.start 0 500, .start 1 600, .wake 0 1000, .wake 1 1000]

/-- C1 demonstration (code bug): the schedule above is a well-formed
cooperative interleaving, yet both outbound fetches start at t=1000 — a
0 ms gap, not the claimed ≥ 1000 ms — because `lastRequestAt` is written
only after the sleep, so the second caller never observes any reservation
made by the first. -/
theorem throttle_interleaved_spacing_violated :
    validSchedule 0 throttleCexInit throttleCexEvents = true ∧
    (runThrottle throttleCexInit throttleCexEvents).tasks =
      [.finished 1000, .finished 1000] ∧
    ¬ (1000 + 1000 ≤ 1000) := by
  refine ⟨by decide, by decide, by decide⟩
